import Mathlib

/-!
Verification of the request-gating layer of the astral-core repository:
rate limiting (src/lib/security.ts, rateLimit), client identity derivation
(getClientIP), security headers (getSecurityHeaders), CORS (configureCORS)
and the gate orchestrator (middleware.ts).  Timestamps are modelled as
natural numbers of milliseconds, header maps and the counter store as
functions to Option.
-/

namespace AstralCore

/-- A stored rate-limit counter record, `{ count, resetTime }` in
src/lib/security.ts line 12. -/
structure RateRecord where
  count : Nat
  resetTime : Nat
  deriving Repr, DecidableEq

/-- `RateLimitConfig` from src/lib/security.ts lines 5-9. -/
structure RateLimitConfig where
  windowMs : Nat
  maxRequests : Nat
  message : Option String
  deriving Repr, DecidableEq

/-- The in-memory rate-limit store (a `Map` keyed by strings in the source),
modelled as a function from keys to optional records. -/
def Store : Type := String → Option RateRecord

def emptyStore : Store := fun _ => none

def setStore (s : Store) (k : String) (r : RateRecord) : Store :=
  fun k2 => if k2 = k then some r else s k2

/-- Response header collections, modelled as partial maps from header name
to value; `setHeader` models `response.headers.set`. -/
def HeadersMap : Type := String → Option String

def emptyHeaders : HeadersMap := fun _ => none

def setHeader (h : HeadersMap) (n v : String) : HeadersMap :=
  fun k => if k = n then some v else h k

def setAll (h : HeadersMap) (l : List (String × String)) : HeadersMap :=
  l.foldl (fun acc p => setHeader acc p.1 p.2) h

/-- The parts of a `NextRequest` the gate reads: method, `nextUrl.pathname`,
the header map (`headers.get` returns null for an absent header, modelled by
`none`), and the connection-level address `request.ip` (possibly undefined,
modelled by `none`). -/
structure Request where
  method : String
  pathname : String
  headers : String → Option String
  ip : Option String

/-- The environment configuration the gate reads: `env.NEXT_PUBLIC_APP_URL`
(possibly undefined) and `env.NODE_ENV`. -/
structure Env where
  NEXT_PUBLIC_APP_URL : Option String
  NODE_ENV : String

/-- A response produced by the gate: status code, headers, optional body
text, and the `retryAfter` field of the JSON body of a 429 response. -/
structure MwResponse where
  status : Nat
  headers : HeadersMap
  body : Option String := none
  retryAfter : Option Nat := none

/-- JavaScript truthiness of a nullable string: null/undefined and the empty
string are falsy. -/
def truthy : Option String → Bool
  | none => false
  | some s => s != ""

/-- A nullable string that JavaScript treats as falsy: absent, or present
with the empty value. -/
def falsyStr (o : Option String) : Prop := o = none ∨ o = some ""

/-- Strip leading and trailing whitespace from a character list (the model
of JavaScript `String.prototype.trim`). -/
def trimList (l : List Char) : List Char :=
  ((l.dropWhile Char.isWhitespace).reverse.dropWhile Char.isWhitespace).reverse

def trimStr (s : String) : String := String.mk (trimList s.toList)

/-- Character-wise lower-casing (the model of `String.prototype.toLowerCase`
for the ASCII patterns used by the gate). -/
def lowerStr (s : String) : String := String.mk (s.toList.map Char.toLower)

/-- The model of `String.prototype.startsWith`. -/
def strStartsWith (s pre : String) : Bool := pre.toList.isPrefixOf s.toList

/-- `forwardedFor.split(',')[0].trim()` from src/lib/security.ts line 65:
the characters before the first comma (the whole string when it has no
comma), trimmed. -/
def firstHopTrimmed (v : String) : String :=
  trimStr (String.mk (v.toList.takeWhile (fun c => c != ',')))

/-- `getClientIP` from src/lib/security.ts lines 58-77.  Each header is
tested with JavaScript truthiness (`if (forwardedFor)` etc.), so a header
that is present with an empty value is skipped. -/
def getClientIP (req : Request) : String :=
  let forwardedFor := req.headers "x-forwarded-for"
  let realIP := req.headers "x-real-ip"
  let cfConnectingIP := req.headers "cf-connecting-ip"
  if truthy forwardedFor then firstHopTrimmed (forwardedFor.getD "")
  else if truthy realIP then realIP.getD ""
  else if truthy cfConnectingIP then cfConnectingIP.getD ""
  else if truthy req.ip then req.ip.getD "" else "unknown"

/-- The store key, `rate_limit:ip` (src/lib/security.ts line 17). -/
def rlKey (ip : String) : String := "rate_limit:" ++ ip

/-- `Math.ceil(x / 1000)` for a non-negative number of milliseconds. -/
def ceilDiv1000 (n : Nat) : Nat := (n + 999) / 1000

/-- One evaluation of the closure returned by `rateLimit(config)`
(src/lib/security.ts lines 14-55) at a derived client identity `ip` and a
current time `now`, acting on store `s`.  Returns the optional 429 response
(`none` means the request is allowed) and the updated store. -/
def rateLimitCheck (config : RateLimitConfig) (ip : String) (now : Nat)
    (s : Store) : Option MwResponse × Store :=
  let key := rlKey ip
  match s key with
  | none =>
      (none, setStore s key { count := 1, resetTime := now + config.windowMs })
  | some record =>
      if now > record.resetTime then
        (none, setStore s key { count := 1, resetTime := now + config.windowMs })
      else if record.count ≥ config.maxRequests then
        (some { status := 429,
                headers := setHeader (setHeader (setHeader (setHeader emptyHeaders
                  "Retry-After" (toString (ceilDiv1000 (record.resetTime - now))))
                  "X-RateLimit-Limit" (toString config.maxRequests))
                  "X-RateLimit-Remaining" "0")
                  "X-RateLimit-Reset" (toString record.resetTime),
                body := some (config.message.getD "Too many requests"),
                retryAfter := some (ceilDiv1000 (record.resetTime - now)) },
         s)
      else
        (none, setStore s key { count := record.count + 1, resetTime := record.resetTime })

/-- A sequence of requests from one client identity evaluated by the rate
limiter at the given times, threading the store; returns the per-request
decisions (`none` = allowed) and the final store. -/
def runSeq (c : RateLimitConfig) (ip : String) :
    List Nat → Store → List (Option MwResponse) × Store
  | [], s => ([], s)
  | t :: ts, s =>
      let step := rateLimitCheck c ip t s
      let tail := runSeq c ip ts step.2
      (step.1 :: tail.1, tail.2)

/-- Substring test on character lists (used to model JavaScript
`RegExp.test` for the literal-substring patterns of the middleware). -/
def containsSub (needle : List Char) : List Char → Bool
  | [] => needle.isEmpty
  | c :: rest => needle.isPrefixOf (c :: rest) || containsSub needle rest

/-- Case-sensitive substring test on strings. -/
def strContains (s pat : String) : Bool := containsSub pat.toList s.toList

/-- Case-insensitive substring test (models a `/pat/i` regex whose pattern
is a literal). -/
def strContainsCI (s pat : String) : Bool :=
  containsSub (lowerStr pat).toList (lowerStr s).toList

/-- Helper for `/union.*select/i`: scans for `select` reachable without
crossing a newline (regex `.` does not match newlines). -/
def hasSelectNoNewline : List Char → Bool
  | [] => false
  | c :: rest =>
      ("select".toList).isPrefixOf (c :: rest) ||
        (c != '\n' && hasSelectNoNewline rest)

def unionSelectAux : List Char → Bool
  | [] => false
  | c :: rest =>
      (("union".toList).isPrefixOf (c :: rest) &&
        hasSelectNoNewline ((c :: rest).drop 5)) || unionSelectAux rest

/-- The `/union.*select/i` pattern of middleware.ts line 158. -/
def unionSelect (p : String) : Bool := unionSelectAux (lowerStr p).toList

/-- `suspiciousPatterns` from middleware.ts lines 105-111. -/
def suspiciousPatterns : List String :=
  ["bot", "crawler", "spider", "scraper", "scanner"]

/-- `legitimateBots` from middleware.ts lines 114-122. -/
def legitimateBots : List String :=
  ["googlebot", "bingbot", "slurp", "duckduckbot", "facebookexternalhit",
   "twitterbot", "linkedinbot"]

def suspiciousUA (ua : String) : Bool :=
  suspiciousPatterns.any (fun p => strContainsCI ua p)

def legitimateBot (ua : String) : Bool :=
  legitimateBots.any (fun p => strContainsCI ua p)

/-- `suspiciousUrlPatterns.some(p => p.test(pathname))` from middleware.ts
lines 153-162: directory traversal, sensitive OS files, inline script tags,
SQL union-select, and eval calls.  The `windows/system32`, `..` and
`/etc/passwd` patterns carry no `i` flag in the source and are matched
case-sensitively. -/
def suspiciousUrl (p : String) : Bool :=
  strContains p ".." || strContains p "/etc/passwd" ||
    strContains p "/windows/system32" || strContainsCI p "<script" ||
    unionSelect p || strContainsCI p "eval("

/-- Longest digit prefix of a character list, as a number; `none` when there
is no leading digit. -/
def digitsVal (l : List Char) : Option Nat :=
  let ds := l.takeWhile Char.isDigit
  if ds.isEmpty then none
  else some (ds.foldl (fun acc c => 10 * acc + (c.toNat - 48)) 0)

/-- JavaScript `parseInt` restricted to decimal inputs: skips surrounding
whitespace, accepts an optional sign, reads the longest digit prefix, and
yields `none` where `parseInt` yields NaN.  The hexadecimal `0x` form of
`parseInt` is not modelled; content-length values are decimal. -/
def jsParseInt (s : String) : Option Int :=
  match trimList s.toList with
  | '-' :: rest => (digitsVal rest).map (fun n => -(n : Int))
  | '+' :: rest => (digitsVal rest).map (fun n => (n : Int))
  | l => (digitsVal l).map (fun n => (n : Int))

/-- The oversized-body test of middleware.ts line 142:
`contentLength && parseInt(contentLength) > 10 * 1024 * 1024`.  A NaN parse
compares as false. -/
def oversizeHeader (req : Request) : Bool :=
  match req.headers "content-length" with
  | none => false
  | some v =>
      v != "" &&
        (match jsParseInt v with
         | some n => decide (n > (10 * 1024 * 1024 : Int))
         | none => false)

/-- A single-quote character, used to write the quoted CSP source keywords. -/
def q1 : String := String.mk [Char.ofNat 39]

/-- The `Content-Security-Policy` value of src/lib/security.ts lines 83-96
(an array of directives joined with `; `). -/
def cspValue : String := String.intercalate "; "
  ["default-src " ++ q1 ++ "self" ++ q1,
   "script-src " ++ q1 ++ "self" ++ q1 ++ " " ++ q1 ++ "unsafe-inline" ++ q1
     ++ " " ++ q1 ++ "unsafe-eval" ++ q1
     ++ " https://www.googletagmanager.com https://www.google-analytics.com https://static.hotjar.com",
   "style-src " ++ q1 ++ "self" ++ q1 ++ " " ++ q1 ++ "unsafe-inline" ++ q1
     ++ " https://fonts.googleapis.com",
   "font-src " ++ q1 ++ "self" ++ q1 ++ " https://fonts.gstatic.com",
   "img-src " ++ q1 ++ "self" ++ q1 ++ " data: https: blob:",
   "media-src " ++ q1 ++ "self" ++ q1 ++ " https:",
   "connect-src " ++ q1 ++ "self" ++ q1 ++ " https: wss: ws:",
   "object-src " ++ q1 ++ "none" ++ q1,
   "base-uri " ++ q1 ++ "self" ++ q1,
   "form-action " ++ q1 ++ "self" ++ q1,
   "frame-ancestors " ++ q1 ++ "none" ++ q1,
   "upgrade-insecure-requests"]

/-- `getSecurityHeaders` from src/lib/security.ts lines 80-110, as the
ordered list of entries of the returned object. -/
def getSecurityHeaders : List (String × String) :=
  [("Content-Security-Policy", cspValue),
   ("X-Content-Type-Options", "nosniff"),
   ("X-Frame-Options", "DENY"),
   ("X-XSS-Protection", "1; mode=block"),
   ("Referrer-Policy", "strict-origin-when-cross-origin"),
   ("Permissions-Policy", "camera=(), microphone=(), geolocation=(), interest-cohort=()"),
   ("Strict-Transport-Security", "max-age=63072000; includeSubDomains; preload"),
   ("Server", ""),
   ("X-Powered-By", "")]

/-- The CORS allow-list of src/lib/security.ts lines 115-119:
`[env.NEXT_PUBLIC_APP_URL, localhost http, localhost https].filter(Boolean)`. -/
def allowedOrigins (env : Env) : List String :=
  (env.NEXT_PUBLIC_APP_URL.toList ++
    ["http://localhost:3000", "https://localhost:3000"]).filter (fun s => s != "")

/-- `configureCORS` from src/lib/security.ts lines 113-131, acting on the
headers of the response under construction. -/
def configureCORS (env : Env) (req : Request) (h : HeadersMap) : HeadersMap :=
  let origin := req.headers "origin"
  let h1 :=
    if truthy origin && (allowedOrigins env).contains (origin.getD "") then
      setHeader h "Access-Control-Allow-Origin" (origin.getD "")
    else h
  setHeader (setHeader (setHeader (setHeader h1
    "Access-Control-Allow-Methods" "GET, POST, PUT, DELETE, OPTIONS")
    "Access-Control-Allow-Headers" "Content-Type, Authorization, X-Requested-With")
    "Access-Control-Max-Age" "86400")
    "Access-Control-Allow-Credentials" "true"

/-- The three rate-limit policies of middleware.ts lines 6-22. -/
def authRateLimit : RateLimitConfig :=
  { windowMs := 15 * 60 * 1000, maxRequests := 5,
    message := some "Too many authentication attempts" }

def apiRateLimit : RateLimitConfig :=
  { windowMs := 15 * 60 * 1000, maxRequests := 100,
    message := some "Too many API requests from this IP" }

def generalRateLimit : RateLimitConfig :=
  { windowMs := 60 * 1000, maxRequests := 60,
    message := some "Too many requests from this IP" }

/-- Policy selection by path prefix, middleware.ts lines 48-82. -/
def selectConfig (pathname : String) : RateLimitConfig :=
  if strStartsWith pathname "/api/auth/" then authRateLimit
  else if strStartsWith pathname "/api/" then apiRateLimit
  else generalRateLimit

/-- `middleware` from middleware.ts lines 24-185.  Inputs beyond the request
itself: the current time `now` (`Date.now()`), the generated request id
(`crypto.randomUUID()`), and the shared rate-limit store.  The nested
bot-check `if` of lines 127-138 has no else and falls through, so it is
flattened into one guard here.  The admin-area header mutations of lines
89-94 only affect the pass-through response (every rejection is a freshly
constructed `NextResponse`), so they are applied on the pass-through branch. -/
def middleware (env : Env) (req : Request) (now : Nat) (requestId : String)
    (s : Store) : MwResponse × Store :=
  let pathname := req.pathname
  let ip := getClientIP req
  let h0 := setAll emptyHeaders getSecurityHeaders
  let h1 := if strStartsWith pathname "/api" then configureCORS env req h0 else h0
  if strStartsWith pathname "/api" && req.method == "OPTIONS" then
    ({ status := 200, headers := h1 }, s)
  else
    let rl := rateLimitCheck (selectConfig pathname) ip now s
    match rl.1 with
    | some resp => (resp, rl.2)
    | none =>
      let h2 :=
        if strStartsWith pathname "/admin" || strStartsWith pathname "/moderator" then
          setHeader (setHeader (setHeader (setHeader h1
            "X-Frame-Options" "SAMEORIGIN")
            "Cache-Control" "no-store, no-cache, must-revalidate, proxy-revalidate")
            "Pragma" "no-cache")
            "Expires" "0"
        else h1
      let ua := (req.headers "user-agent").getD ""
      if (suspiciousUA ua && !legitimateBot ua) &&
          !strStartsWith pathname "/api/robots" && !strStartsWith pathname "/api/sitemap" &&
          (strStartsWith pathname "/admin" || strStartsWith pathname "/api/") then
        ({ status := 403, headers := emptyHeaders, body := some "Access Denied" }, rl.2)
      else if oversizeHeader req then
        ({ status := 413, headers := emptyHeaders, body := some "Request Too Large" }, rl.2)
      else if suspiciousUrl pathname then
        ({ status := 400, headers := emptyHeaders, body := some "Bad Request" }, rl.2)
      else
        let h3 := setHeader (setHeader h2 "X-Request-ID" requestId)
          "X-Response-Time" (toString now)
        let h4 :=
          if env.NODE_ENV == "development" then
            setHeader (setHeader h3 "X-Environment" "development") "X-Debug-IP" ip
          else h3
        ({ status := 200, headers := h4 }, rl.2)

/-- Store states reachable from the empty store by evaluating the rate
limiter with one fixed policy at nondecreasing times; the second index is
the time of the last step (`Date.now()` is nondecreasing across requests). -/
inductive Reach (c : RateLimitConfig) : Store → Nat → Prop
  | init (t : Nat) : Reach c emptyStore t
  | step (s : Store) (t t2 : Nat) (ip : String) :
      Reach c s t → t ≤ t2 → Reach c (rateLimitCheck c ip t2 s).2 t2

/-! ## Concrete instances used in counterexamples and witnesses -/

/-- A production-like environment configuration. -/
def envProd : Env :=
  { NEXT_PUBLIC_APP_URL := some "https://astralcore.io", NODE_ENV := "production" }

/-- A policy with a 1000 ms window and a budget of 1 request. -/
def cfgB : RateLimitConfig := { windowMs := 1000, maxRequests := 1, message := none }

/-- The store after one request from `1.2.3.4` at time 0 under `cfgB`:
it holds the record `{count := 1, resetTime := 1000}`. -/
def storeB : Store := (rateLimitCheck cfgB "1.2.3.4" 0 emptyStore).2

/-- A request whose `x-forwarded-for` header is present but empty while
`x-real-ip` is set. -/
def reqEmptyXff : Request :=
  { method := "GET", pathname := "/",
    headers := fun k =>
      if k = "x-forwarded-for" then some ""
      else if k = "x-real-ip" then some "5.6.7.8" else none,
    ip := none }

/-- A request with a multi-hop `x-forwarded-for` header. -/
def reqXffList : Request :=
  { method := "GET", pathname := "/",
    headers := fun k =>
      if k = "x-forwarded-for" then some " 1.2.3.4 , 9.9.9.9" else none,
    ip := none }

/-- An API request whose origin is an allow-listed development origin. -/
def reqOriginLocal : Request :=
  { method := "GET", pathname := "/api/x",
    headers := fun k => if k = "origin" then some "http://localhost:3000" else none,
    ip := none }

/-- Scenario D of the spec: a scraper user agent on an API path. -/
def reqScraperApi : Request :=
  { method := "GET", pathname := "/api/users",
    headers := fun k => if k = "user-agent" then some "curl-scraper/1.0" else none,
    ip := none }

/-- Scenario C of the spec: Googlebot on an admin path. -/
def reqGooglebotAdmin : Request :=
  { method := "GET", pathname := "/admin/x",
    headers := fun k => if k = "user-agent" then some "Googlebot" else none,
    ip := none }

/-- An auth-path request whose declared content length exceeds 10 MiB. -/
def reqOversizeAuth : Request :=
  { method := "POST", pathname := "/api/auth/login",
    headers := fun k => if k = "content-length" then some "11000000" else none,
    ip := none }

/-- A general-path request whose declared content length exceeds 10 MiB. -/
def reqOversizeUpload : Request :=
  { method := "POST", pathname := "/upload",
    headers := fun k => if k = "content-length" then some "11000000" else none,
    ip := none }

/-- A malicious traversal path combined with an oversized declared body. -/
def reqOversizePasswd : Request :=
  { method := "POST", pathname := "/../../etc/passwd",
    headers := fun k => if k = "content-length" then some "11000000" else none,
    ip := none }

/-- Scenario B of the spec: a directory-traversal path. -/
def reqPasswd : Request :=
  { method := "GET", pathname := "/../../etc/passwd",
    headers := fun _ => none, ip := none }

/-- The store after the auth budget (5 requests) is exhausted by the
`unknown` identity at time 0. -/
def storeAuth5 : Store :=
  (runSeq authRateLimit "unknown" [0, 0, 0, 0, 0] emptyStore).2

/-- The store after the general budget (60 requests) is exhausted by the
`unknown` identity at time 0. -/
def storeGen60 : Store :=
  (runSeq generalRateLimit "unknown" (List.replicate 60 0) emptyStore).2

/-! ## Helper lemmas -/

lemma setStore_same (s : Store) (k : String) (r : RateRecord) :
    setStore s k r k = some r := by
  simp [setStore]

lemma setStore_set (s : Store) (k : String) (a b : RateRecord) :
    setStore (setStore s k a) k b = setStore s k b := by
  funext k2
  by_cases h : k2 = k <;> simp [setStore, h]

lemma setHeader_same (h : HeadersMap) (n v : String) :
    setHeader h n v n = some v := by
  simp [setHeader]

lemma setHeader_other (h : HeadersMap) (n v k : String) (hne : k ≠ n) :
    setHeader h n v k = h k := by
  simp [setHeader, hne]

lemma rateLimitCheck_fresh (c : RateLimitConfig) (ip : String) (now : Nat) :
    rateLimitCheck c ip now emptyStore =
      (none, setStore emptyStore (rlKey ip) ⟨1, now + c.windowMs⟩) := rfl

lemma rateLimitCheck_allow (c : RateLimitConfig) (ip : String) (now k R : Nat)
    (hnow : now ≤ R) (hk : k < c.maxRequests) :
    rateLimitCheck c ip now (setStore emptyStore (rlKey ip) ⟨k, R⟩) =
      (none, setStore emptyStore (rlKey ip) ⟨k + 1, R⟩) := by
  have h1 : setStore emptyStore (rlKey ip) ⟨k, R⟩ (rlKey ip) =
      some ⟨k, R⟩ := setStore_same _ _ _
  simp only [rateLimitCheck, h1, Nat.not_lt.mpr hnow, if_false,
    Nat.not_le.mpr hk, ite_false, setStore_set]

lemma rateLimitCheck_reject (c : RateLimitConfig) (ip : String) (now k R : Nat)
    (hnow : now ≤ R) (hk : c.maxRequests ≤ k) :
    ((rateLimitCheck c ip now (setStore emptyStore (rlKey ip) ⟨k, R⟩)).1).map
        MwResponse.status = some 429 ∧
      (rateLimitCheck c ip now (setStore emptyStore (rlKey ip) ⟨k, R⟩)).2 =
        setStore emptyStore (rlKey ip) ⟨k, R⟩ := by
  have h1 : setStore emptyStore (rlKey ip) ⟨k, R⟩ (rlKey ip) =
      some ⟨k, R⟩ := setStore_same _ _ _
  simp only [rateLimitCheck, h1, Nat.not_lt.mpr hnow, if_false, hk, ite_true,
    Option.map_some]
  exact ⟨rfl, trivial⟩

lemma runSeq_allow (c : RateLimitConfig) (ip : String) (R : Nat)
    (ts : List Nat) :
    ∀ k : Nat, (∀ t ∈ ts, t ≤ R) → k + ts.length ≤ c.maxRequests →
      runSeq c ip ts (setStore emptyStore (rlKey ip) ⟨k, R⟩) =
        (List.replicate ts.length none,
         setStore emptyStore (rlKey ip) ⟨k + ts.length, R⟩) := by
  induction ts with
  | nil => intro k _ _; simp [runSeq]
  | cons t ts ih =>
      intro k hmem hlen
      have ht : t ≤ R := hmem t (by simp)
      have hk : k < c.maxRequests := by
        simp only [List.length_cons] at hlen; omega
      simp only [runSeq, rateLimitCheck_allow c ip t k R ht hk]
      rw [ih (k + 1) (fun t2 h2 => hmem t2 (by simp [h2]))
        (by simp only [List.length_cons] at hlen ⊢; omega)]
      refine Prod.ext ?_ ?_
      · simp [List.replicate_succ]
      · simp only
        have harith : k + 1 + ts.length = k + (ts.length + 1) := by omega
        rw [harith]
        rfl

lemma runSeq_append (c : RateLimitConfig) (ip : String) (l1 l2 : List Nat) :
    ∀ s : Store,
      runSeq c ip (l1 ++ l2) s =
        ((runSeq c ip l1 s).1 ++ (runSeq c ip l2 (runSeq c ip l1 s).2).1,
         (runSeq c ip l2 (runSeq c ip l1 s).2).2) := by
  induction l1 with
  | nil => intro s; simp [runSeq]
  | cons t ts ih => intro s; simp [runSeq, ih]

/-! ## C1 -/

/-- Claim C1: for every client identity and a fixed policy with
`maxRequests = N` (at least 1), if `N + 1` requests from that identity are
evaluated within one unexpired window, starting on a fresh store, then
requests 1 through N are allowed and the `(N+1)`-th returns a 429
rejection. -/
theorem c1_window_budget (c : RateLimitConfig) (ip : String) (t0 : Nat)
    (rest : List Nat) (hmax : 1 ≤ c.maxRequests)
    (hlen : rest.length = c.maxRequests)
    (hwin : ∀ t ∈ rest, t ≤ t0 + c.windowMs) :
    ((runSeq c ip (t0 :: rest) emptyStore).1).map (Option.map MwResponse.status) =
      List.replicate c.maxRequests none ++ [some 429] := by
  have hne : rest ≠ [] := by
    intro h; rw [h] at hlen; simp at hlen; omega
  have hsplit : rest.dropLast ++ [rest.getLast hne] = rest :=
    rest.dropLast_append_getLast hne
  have hmidlen : rest.dropLast.length = c.maxRequests - 1 := by
    rw [List.length_dropLast, hlen]
  simp only [runSeq, rateLimitCheck_fresh]
  rw [← hsplit, runSeq_append]
  have hmid := runSeq_allow c ip (t0 + c.windowMs) rest.dropLast 1
    (fun t ht => hwin t (List.IsPrefix.mem ht ⟨[rest.getLast hne], hsplit⟩))
    (by omega)
  rw [hmid]
  have hcnt : 1 + rest.dropLast.length = c.maxRequests := by omega
  rw [hcnt]
  have hlast := rateLimitCheck_reject c ip (rest.getLast hne) c.maxRequests
    (t0 + c.windowMs) (hwin _ (rest.getLast_mem hne)) (le_refl _)
  simp only [runSeq]
  simp only [List.map_cons, List.map_append, List.map_replicate,
    List.map_nil, hlast.1]
  have hmap : Option.map MwResponse.status none = none := rfl
  rw [hmap, ← List.cons_append, ← List.replicate_succ]
  have hfin : rest.dropLast.length + 1 = c.maxRequests := by omega
  rw [hfin]

/-- Witness for C1 at the concrete policy of spec Scenario A
(window 60000 ms, max 2) and requests at times 0, 1, 2. -/
theorem c1_window_budget_witness :
    1 ≤ (2 : Nat) ∧ ([1, 2] : List Nat).length = 2 ∧
      (∀ t ∈ ([1, 2] : List Nat), t ≤ 0 + 60000) ∧
      ((runSeq ⟨60000, 2, none⟩ "1.2.3.4" (0 :: [1, 2]) emptyStore).1).map
          (Option.map MwResponse.status) =
        List.replicate 2 none ++ [some 429] :=
  ⟨by decide, by decide, by decide,
    c1_window_budget ⟨60000, 2, none⟩ "1.2.3.4" 0 [1, 2] (by decide) (by decide)
      (by decide)⟩

/-! ## C5 -/

/-- Claim C5 is false at the window boundary: with a 1000 ms window and a
record created at time 0 (`resetAt = 1000`), a request at `now = 1000`
satisfies `now ≥ record.resetAt`, yet the code (which tests
`now > record.resetTime`) does not create a fresh record and does not allow
the request: it rejects with 429 and leaves the record unchanged. -/
theorem c5_counterexample :
    storeB (rlKey "1.2.3.4") = some ⟨1, 1000⟩ ∧
      ((rateLimitCheck cfgB "1.2.3.4" 1000 storeB).1).map MwResponse.status =
        some 429 ∧
      (rateLimitCheck cfgB "1.2.3.4" 1000 storeB).2 (rlKey "1.2.3.4") =
        some ⟨1, 1000⟩ := by
  refine ⟨by decide, by decide, by decide⟩

/-- Claim C5, amended: the check creates a fresh record
`{count := 1, resetAt := now + windowDurationMs}` and returns allowed
exactly when no record exists for the key or `now > record.resetAt`
(strictly later: once strictly more than `windowDurationMs` has elapsed past
the window start, the next request is accepted regardless of prior count).
The hypothesis `hcount` (every stored record has a positive count) holds for
every reachable store, since records are created with count 1 and only ever
incremented. -/
theorem c5_reset_iff (c : RateLimitConfig) (ip : String) (now : Nat)
    (s : Store) (hcount : ∀ r, s (rlKey ip) = some r → 1 ≤ r.count) :
    ((rateLimitCheck c ip now s).1 = none ∧
        (rateLimitCheck c ip now s).2 (rlKey ip) =
          some ⟨1, now + c.windowMs⟩) ↔
      (s (rlKey ip) = none ∨
        ∃ r, s (rlKey ip) = some r ∧ r.resetTime < now) := by
  cases hrec : s (rlKey ip) with
  | none =>
      simp only [rateLimitCheck, hrec]
      simp [setStore_same]
  | some r =>
      by_cases hgt : r.resetTime < now
      · simp only [rateLimitCheck, hrec, if_pos hgt]
        simp [setStore_same, hgt]
      · by_cases hge : c.maxRequests ≤ r.count
        · simp only [rateLimitCheck, hrec, if_neg hgt, if_pos hge]
          simp [hgt]
        · have h1 : 1 ≤ r.count := hcount r hrec
          simp only [rateLimitCheck, hrec, if_neg hgt, if_neg hge]
          simp only [setStore_same]
          constructor
          · rintro ⟨-, heq⟩
            exfalso
            have h3 : r.count + 1 = 1 :=
              congrArg RateRecord.count (Option.some.inj heq)
            omega
          · rintro (h | ⟨r2, hr2, hlt⟩)
            · exact absurd h (by simp)
            · have h4 := Option.some.inj hr2
              subst h4
              exact absurd hlt hgt

/-- Witness for the amended C5 on a fresh store: no record exists, so the
fresh record is created and the request allowed. -/
theorem c5_reset_iff_witness :
    (∀ r : RateRecord, emptyStore (rlKey "1.2.3.4") = some r → 1 ≤ r.count) ∧
      (((rateLimitCheck cfgB "1.2.3.4" 77 emptyStore).1 = none ∧
          (rateLimitCheck cfgB "1.2.3.4" 77 emptyStore).2 (rlKey "1.2.3.4") =
            some ⟨1, 77 + cfgB.windowMs⟩) ↔
        (emptyStore (rlKey "1.2.3.4") = none ∨
          ∃ r, emptyStore (rlKey "1.2.3.4") = some r ∧ r.resetTime < 77)) :=
  ⟨(fun _ h => nomatch h),
    c5_reset_iff cfgB "1.2.3.4" 77 emptyStore (fun _ h => nomatch h)⟩

/-! ## C6 -/

lemma rateLimitCheck_store_reset (c : RateLimitConfig) (ip : String)
    (now : Nat) (s : Store) (k : String) (r : RateRecord)
    (h : (rateLimitCheck c ip now s).2 k = some r) :
    r.resetTime = now + c.windowMs ∨
      ∃ r0, s k = some r0 ∧ r.resetTime = r0.resetTime := by
  cases hrec : s (rlKey ip) with
  | none =>
      have hs : (rateLimitCheck c ip now s).2 =
          setStore s (rlKey ip) ⟨1, now + c.windowMs⟩ := by
        simp only [rateLimitCheck, hrec]
      rw [hs] at h
      by_cases hk : k = rlKey ip
      · rw [hk, setStore_same] at h
        exact Or.inl (congrArg RateRecord.resetTime (Option.some.inj h)).symm
      · simp only [setStore, if_neg hk] at h
        exact Or.inr ⟨r, h, rfl⟩
  | some r0 =>
      by_cases hgt : r0.resetTime < now
      · have hs : (rateLimitCheck c ip now s).2 =
            setStore s (rlKey ip) ⟨1, now + c.windowMs⟩ := by
          simp only [rateLimitCheck, hrec, if_pos hgt]
        rw [hs] at h
        by_cases hk : k = rlKey ip
        · rw [hk, setStore_same] at h
          exact Or.inl (congrArg RateRecord.resetTime (Option.some.inj h)).symm
        · simp only [setStore, if_neg hk] at h
          exact Or.inr ⟨r, h, rfl⟩
      · by_cases hge : c.maxRequests ≤ r0.count
        · have hs : (rateLimitCheck c ip now s).2 = s := by
            simp only [rateLimitCheck, hrec, if_neg hgt, if_pos hge]
          rw [hs] at h
          exact Or.inr ⟨r, h, rfl⟩
        · have hs : (rateLimitCheck c ip now s).2 =
              setStore s (rlKey ip) ⟨r0.count + 1, r0.resetTime⟩ := by
            simp only [rateLimitCheck, hrec, if_neg hgt, if_neg hge]
          rw [hs] at h
          by_cases hk : k = rlKey ip
          · rw [hk, setStore_same] at h
            have h4 := Option.some.inj h
            refine Or.inr ⟨r0, by rw [hk]; exact hrec, ?_⟩
            rw [← h4]
          · simp only [setStore, if_neg hk] at h
            exact Or.inr ⟨r, h, rfl⟩

/-- Every record in a store reachable at time `t` under policy `c` has a
reset time at most `t + windowMs`. -/
lemma reach_resetTime_le (c : RateLimitConfig) (s : Store) (t : Nat)
    (hreach : Reach c s t) :
    ∀ k r, s k = some r → r.resetTime ≤ t + c.windowMs := by
  induction hreach with
  | init t => intro k r hr; exact absurd hr (by simp [emptyStore])
  | step s t t2 ip hr hle ih =>
      intro k r hrec
      rcases rateLimitCheck_store_reset c ip t2 s k r hrec with h | ⟨r0, hr0, heq⟩
      · omega
      · have := ih k r0 hr0
        omega

/-- Claim C6 is false: Retry-After can be 0.  The record of `storeB` was
created at time 0 with a 1000 ms window; a second request at exactly
`now = resetAt = 1000` is still inside the unexpired window (the code resets
only strictly after), is rejected with status 429, and reports
`Retry-After = ceil((1000 - 1000)/1000) = 0`, contradicting
`Retry-After > 0`. -/
theorem c6_counterexample :
    Reach cfgB storeB 0 ∧
      ((rateLimitCheck cfgB "1.2.3.4" 1000 storeB).1).map MwResponse.status =
        some 429 ∧
      ((rateLimitCheck cfgB "1.2.3.4" 1000 storeB).1).map MwResponse.retryAfter =
        some (some 0) := by
  refine ⟨?_, by decide, by decide⟩
  show Reach cfgB ((rateLimitCheck cfgB "1.2.3.4" 0 emptyStore).2) 0
  exact Reach.step emptyStore 0 0 "1.2.3.4" (Reach.init 0) (le_refl 0)

/-- Claim C6, amended: on every rejection produced by the rate limiter on a
store reachable under the fixed policy `c`, the rejection is a 429 whose
`retryAfter` equals `ceil((resetAt - now)/1000)`; this value is a natural
number (hence `≥ 0`, and it can be 0 exactly at `now = resetAt`) and is at
most `ceil(windowDurationMs/1000)`. -/
theorem c6_retry_after (c : RateLimitConfig) (s : Store) (t now : Nat)
    (ip : String) (hreach : Reach c s t) (hle : t ≤ now)
    (hrej : (rateLimitCheck c ip now s).1 ≠ none) :
    ∃ rec, s (rlKey ip) = some rec ∧ now ≤ rec.resetTime ∧
      ((rateLimitCheck c ip now s).1).map MwResponse.status = some 429 ∧
      ((rateLimitCheck c ip now s).1).map MwResponse.retryAfter =
        some (some (ceilDiv1000 (rec.resetTime - now))) ∧
      ceilDiv1000 (rec.resetTime - now) ≤ ceilDiv1000 c.windowMs := by
  cases hrec : s (rlKey ip) with
  | none =>
      exact absurd (by simp [rateLimitCheck, hrec]) hrej
  | some rec =>
      by_cases hgt : rec.resetTime < now
      · exact absurd (by simp [rateLimitCheck, hrec, hgt]) hrej
      · by_cases hge : c.maxRequests ≤ rec.count
        · refine ⟨rec, rfl, Nat.not_lt.mp hgt, ?_, ?_, ?_⟩
          · simp [rateLimitCheck, hrec, hgt, hge]
          · simp [rateLimitCheck, hrec, hgt, hge]
          · have hR : rec.resetTime ≤ t + c.windowMs :=
              reach_resetTime_le c s t hreach _ rec hrec
            have : rec.resetTime - now ≤ c.windowMs := by omega
            exact Nat.div_le_div_right (by omega)
        · exact absurd (by simp [rateLimitCheck, hrec, hgt, hge]) hrej

/-- Witness for the amended C6 at the boundary rejection of the
counterexample: the reported value is 0, within the amended bounds. -/
theorem c6_retry_after_witness :
    (0 : Nat) ≤ 1000 ∧
      (∃ rec, storeB (rlKey "1.2.3.4") = some rec ∧ 1000 ≤ rec.resetTime ∧
        ((rateLimitCheck cfgB "1.2.3.4" 1000 storeB).1).map MwResponse.status =
          some 429 ∧
        ((rateLimitCheck cfgB "1.2.3.4" 1000 storeB).1).map MwResponse.retryAfter =
          some (some (ceilDiv1000 (rec.resetTime - 1000))) ∧
        ceilDiv1000 (rec.resetTime - 1000) ≤ ceilDiv1000 cfgB.windowMs) :=
  ⟨by decide,
    c6_retry_after cfgB storeB 0 1000 "1.2.3.4"
      (Reach.step emptyStore 0 0 "1.2.3.4" (Reach.init 0) (le_refl 0))
      (by decide) (fun h => nomatch h)⟩

/-! ## C10 -/

/-- Claim C10: the counter key depends only on the client IP, so a record
created under one policy (here at time `t1`, with `c1.windowMs` as its
window) is consulted and mutated, with its existing count and reset time,
by a later request from the same client evaluated under a different
policy `c2`. -/
theorem c10_shared_counter (c1 c2 : RateLimitConfig) (ip : String)
    (t1 t2 : Nat) (hwin : t2 ≤ t1 + c1.windowMs) (hmax : 1 < c2.maxRequests) :
    (rateLimitCheck c1 ip t1 emptyStore).2 (rlKey ip) =
        some ⟨1, t1 + c1.windowMs⟩ ∧
      (rateLimitCheck c2 ip t2 (rateLimitCheck c1 ip t1 emptyStore).2).2
          (rlKey ip) = some ⟨2, t1 + c1.windowMs⟩ := by
  constructor
  · rw [rateLimitCheck_fresh]
    exact setStore_same _ _ _
  · rw [rateLimitCheck_fresh,
      rateLimitCheck_allow c2 ip t2 1 (t1 + c1.windowMs) hwin hmax]
    exact setStore_same _ _ _

/-- Witness for C10 across two of the concrete middleware policies: a record
created by the auth policy (15-minute window) at time 0 is read and
incremented by the general policy at time 60000, keeping the auth reset
time. -/
theorem c10_shared_counter_witness :
    60000 ≤ 0 + authRateLimit.windowMs ∧ 1 < generalRateLimit.maxRequests ∧
      ((rateLimitCheck authRateLimit "9.9.9.9" 0 emptyStore).2 (rlKey "9.9.9.9") =
          some ⟨1, 0 + authRateLimit.windowMs⟩ ∧
        (rateLimitCheck generalRateLimit "9.9.9.9" 60000
            (rateLimitCheck authRateLimit "9.9.9.9" 0 emptyStore).2).2
            (rlKey "9.9.9.9") = some ⟨2, 0 + authRateLimit.windowMs⟩) :=
  ⟨by decide, by decide,
    c10_shared_counter authRateLimit generalRateLimit "9.9.9.9" 0 60000
      (by decide) (by decide)⟩

/-! ## C9 -/

lemma truthy_false (o : Option String) (h : falsyStr o) : truthy o = false := by
  rcases h with h | h <;> simp [h, truthy]

/-- Claim C9 is false for a present-but-empty `x-forwarded-for` header: the
claim says a present forwarded-for header always wins (its first hop,
trimmed, here the empty string), but the code tests JavaScript truthiness
and falls through to `x-real-ip`. -/
theorem c9_counterexample :
    reqEmptyXff.headers "x-forwarded-for" = some "" ∧
      firstHopTrimmed "" = "" ∧
      getClientIP reqEmptyXff = "5.6.7.8" ∧
      ("5.6.7.8" : String) ≠ "" := by
  refine ⟨rfl, by decide, by decide, by decide⟩

/-- Claim C9, amended: the priority order holds with "present" strengthened
to "present with a non-empty value" at every level (including the
connection-level address): forwarded-for first hop trimmed, then real-ip,
then cf-connecting-ip, then `request.ip`, else `"unknown"`. -/
theorem c9_priority (req : Request) :
    (∀ v, req.headers "x-forwarded-for" = some v → v ≠ "" →
        getClientIP req = firstHopTrimmed v) ∧
      (falsyStr (req.headers "x-forwarded-for") →
        ∀ v, req.headers "x-real-ip" = some v → v ≠ "" →
          getClientIP req = v) ∧
      (falsyStr (req.headers "x-forwarded-for") →
        falsyStr (req.headers "x-real-ip") →
        ∀ v, req.headers "cf-connecting-ip" = some v → v ≠ "" →
          getClientIP req = v) ∧
      (falsyStr (req.headers "x-forwarded-for") →
        falsyStr (req.headers "x-real-ip") →
        falsyStr (req.headers "cf-connecting-ip") →
        ∀ v, req.ip = some v → v ≠ "" → getClientIP req = v) ∧
      (falsyStr (req.headers "x-forwarded-for") →
        falsyStr (req.headers "x-real-ip") →
        falsyStr (req.headers "cf-connecting-ip") → falsyStr req.ip →
        getClientIP req = "unknown") := by
  refine ⟨?_, ?_, ?_, ?_, ?_⟩
  · intro v hv hne
    simp only [getClientIP, hv]
    simp [truthy, hne]
  · intro hff v hv hne
    simp only [getClientIP, truthy_false _ hff, hv]
    simp [truthy, hne]
  · intro hff hri v hv hne
    simp only [getClientIP, truthy_false _ hff, truthy_false _ hri, hv]
    simp [truthy, hne]
  · intro hff hri hcf v hv hne
    simp only [getClientIP, truthy_false _ hff, truthy_false _ hri,
      truthy_false _ hcf, hv]
    simp [truthy, hne]
  · intro hff hri hcf hip
    simp only [getClientIP, truthy_false _ hff, truthy_false _ hri,
      truthy_false _ hcf, truthy_false _ hip]
    simp

/-- Witness for the amended C9: a multi-hop forwarded-for header yields its
first hop, trimmed. -/
theorem c9_priority_witness :
    reqXffList.headers "x-forwarded-for" = some " 1.2.3.4 , 9.9.9.9" ∧
      (" 1.2.3.4 , 9.9.9.9" : String) ≠ "" ∧
      getClientIP reqXffList = firstHopTrimmed " 1.2.3.4 , 9.9.9.9" ∧
      firstHopTrimmed " 1.2.3.4 , 9.9.9.9" = "1.2.3.4" :=
  ⟨rfl, by decide, (c9_priority reqXffList).1 _ rfl (by decide), by decide⟩

/-! ## C8 -/

lemma empty_not_mem_allowedOrigins (env : Env) : "" ∉ allowedOrigins env := by
  intro h
  have h2 := List.of_mem_filter h
  simp at h2

/-- Claim C8: `Access-Control-Allow-Origin` is present and equals the
request origin exactly when the origin header carries one of the configured
allowed origins (application base URL plus the two localhost development
origins); for any other origin, or when no origin is present, the header is
absent, provided the headers built so far do not already carry it (the
security-header set does not). -/
theorem c8_cors (env : Env) (req : Request) (h : HeadersMap)
    (h0 : h "Access-Control-Allow-Origin" = none) :
    (∀ v, configureCORS env req h "Access-Control-Allow-Origin" = some v ↔
        (req.headers "origin" = some v ∧ v ∈ allowedOrigins env)) ∧
      ((∀ o, req.headers "origin" = some o → o ∉ allowedOrigins env) →
        configureCORS env req h "Access-Control-Allow-Origin" = none) := by
  have hthru : ∀ h2 : HeadersMap,
      (setHeader (setHeader (setHeader (setHeader h2
        "Access-Control-Allow-Methods" "GET, POST, PUT, DELETE, OPTIONS")
        "Access-Control-Allow-Headers" "Content-Type, Authorization, X-Requested-With")
        "Access-Control-Max-Age" "86400")
        "Access-Control-Allow-Credentials" "true") "Access-Control-Allow-Origin" =
        h2 "Access-Control-Allow-Origin" := by
    intro h2
    rw [setHeader_other _ _ _ _ (by decide), setHeader_other _ _ _ _ (by decide),
      setHeader_other _ _ _ _ (by decide), setHeader_other _ _ _ _ (by decide)]
  have hmain : configureCORS env req h "Access-Control-Allow-Origin" =
      (if truthy (req.headers "origin") &&
          (allowedOrigins env).contains ((req.headers "origin").getD "") then
        some ((req.headers "origin").getD "")
      else h "Access-Control-Allow-Origin") := by
    simp only [configureCORS, hthru]
    by_cases hcond : (truthy (req.headers "origin") &&
        (allowedOrigins env).contains ((req.headers "origin").getD "")) = true
    · rw [if_pos hcond, if_pos hcond, setHeader_same]
    · rw [if_neg hcond, if_neg hcond]
  constructor
  · intro v
    rw [hmain]
    cases horigin : req.headers "origin" with
    | none => simp [truthy, h0]
    | some o =>
        by_cases hoe : o = ""
        · subst hoe
          have hcond : (truthy (some "") &&
              (allowedOrigins env).contains ((some "").getD "")) = false := by
            simp only [truthy, bne_self_eq_false, Bool.false_and]
          have hfalse : (if truthy (some "") &&
              (allowedOrigins env).contains ((some "").getD "") then
                some ((some "").getD "")
              else h "Access-Control-Allow-Origin") = none := by
            rw [if_neg (by rw [hcond]; exact Bool.false_ne_true), h0]
          rw [hfalse]
          constructor
          · intro hx; cases hx
          · rintro ⟨heq, hmem⟩
            cases Option.some.inj heq
            exact absurd hmem (empty_not_mem_allowedOrigins env)
        · by_cases hmem : o ∈ allowedOrigins env
          · have hbne : (o != "") = true := bne_iff_ne.mpr hoe
            have hc : (allowedOrigins env).contains o = true :=
              List.elem_eq_true_of_mem hmem
            have hcond : (truthy (some o) &&
                (allowedOrigins env).contains ((some o).getD "")) = true := by
              simp only [truthy, Option.getD_some, hbne, hc, Bool.and_self]
            have htrue : (if truthy (some o) &&
                (allowedOrigins env).contains ((some o).getD "") then
                  some ((some o).getD "")
                else h "Access-Control-Allow-Origin") = some o := by
              rw [if_pos hcond]
              rfl
            rw [htrue]
            constructor
            · intro hx
              cases Option.some.inj hx
              exact ⟨rfl, hmem⟩
            · rintro ⟨heq, -⟩
              exact heq
          · have hc : (allowedOrigins env).contains o = false := by
              by_contra hcc
              exact hmem (List.mem_of_elem_eq_true (eq_true_of_ne_false hcc))
            have hcond : (truthy (some o) &&
                (allowedOrigins env).contains ((some o).getD "")) = false := by
              simp only [truthy, Option.getD_some, hc, Bool.and_false]
            have hfalse : (if truthy (some o) &&
                (allowedOrigins env).contains ((some o).getD "") then
                  some ((some o).getD "")
                else h "Access-Control-Allow-Origin") = none := by
              rw [if_neg (by rw [hcond]; exact Bool.false_ne_true), h0]
            rw [hfalse]
            constructor
            · intro hx; cases hx
            · rintro ⟨heq, hmemv⟩
              cases Option.some.inj heq
              exact absurd hmemv hmem
  · intro hnone
    rw [hmain]
    cases horigin : req.headers "origin" with
    | none => simp [truthy, h0]
    | some o =>
        have hnm : o ∉ allowedOrigins env := hnone o horigin
        have hc : (allowedOrigins env).contains o = false := by
          by_contra hcc
          exact hnm (List.mem_of_elem_eq_true (eq_true_of_ne_false hcc))
        have hcond : (truthy (some o) &&
            (allowedOrigins env).contains ((some o).getD "")) = false := by
          simp only [truthy, Option.getD_some, hc, Bool.and_false]
        rw [if_neg (by rw [hcond]; exact Bool.false_ne_true), h0]

/-- Witness for C8: an allow-listed development origin is echoed. -/
theorem c8_cors_witness :
    emptyHeaders "Access-Control-Allow-Origin" = none ∧
      configureCORS envProd reqOriginLocal emptyHeaders
          "Access-Control-Allow-Origin" = some "http://localhost:3000" :=
  ⟨rfl, ((c8_cors envProd reqOriginLocal emptyHeaders rfl).1 _).mpr
    ⟨rfl, by decide⟩⟩

/-! ## C7 -/

/-- Claim C7: provided the request is not an API preflight and the rate
limiter admits it (the middleware consults the limiter first), the gate
returns 403 exactly when the user agent matches a bot/crawler/spider/
scraper/scanner signature, does not match a known-legitimate crawler
signature, the path does not start with the robots or sitemap endpoint, and
the path starts with the admin or API prefix. -/
theorem c7_bot_filter (env : Env) (req : Request) (now : Nat) (rid : String)
    (s : Store)
    (hopt : (strStartsWith req.pathname "/api" && (req.method == "OPTIONS")) = false)
    (hallow : (rateLimitCheck (selectConfig req.pathname) (getClientIP req) now s).1 = none) :
    (middleware env req now rid s).1.status = 403 ↔
      ((suspiciousUA ((req.headers "user-agent").getD "") &&
          !legitimateBot ((req.headers "user-agent").getD "")) &&
        !strStartsWith req.pathname "/api/robots" &&
        !strStartsWith req.pathname "/api/sitemap" &&
        (strStartsWith req.pathname "/admin" ||
          strStartsWith req.pathname "/api/")) = true := by
  simp only [middleware, hopt, Bool.false_eq_true, if_false, hallow]
  by_cases hbot : ((suspiciousUA ((req.headers "user-agent").getD "") &&
      !legitimateBot ((req.headers "user-agent").getD "")) &&
    !strStartsWith req.pathname "/api/robots" &&
    !strStartsWith req.pathname "/api/sitemap" &&
    (strStartsWith req.pathname "/admin" ||
      strStartsWith req.pathname "/api/")) = true
  · rw [if_pos hbot]
    simp [hbot]
  · rw [if_neg hbot]
    by_cases hov : oversizeHeader req = true
    · rw [if_pos hov]
      simp [hbot]
    · rw [if_neg hov]
      by_cases hmal : suspiciousUrl req.pathname = true
      · rw [if_pos hmal]
        simp [hbot]
      · rw [if_neg hmal]
        simp [hbot]

/-- Witness for C7 at spec Scenarios D and C: a scraper user agent on
`/api/users` is rejected with 403 on a fresh store, while Googlebot on
`/admin/x` is not rejected by the bot check. -/
theorem c7_bot_filter_witness :
    (strStartsWith reqScraperApi.pathname "/api" &&
        (reqScraperApi.method == "OPTIONS")) = false ∧
      (rateLimitCheck (selectConfig reqScraperApi.pathname)
          (getClientIP reqScraperApi) 0 emptyStore).1 = none ∧
      (middleware envProd reqScraperApi 0 "rid" emptyStore).1.status = 403 ∧
      (strStartsWith reqGooglebotAdmin.pathname "/api" &&
        (reqGooglebotAdmin.method == "OPTIONS")) = false ∧
      (rateLimitCheck (selectConfig reqGooglebotAdmin.pathname)
          (getClientIP reqGooglebotAdmin) 0 emptyStore).1 = none ∧
      ¬(middleware envProd reqGooglebotAdmin 0 "rid" emptyStore).1.status = 403 :=
  ⟨by decide, rfl,
    (c7_bot_filter envProd reqScraperApi 0 "rid" emptyStore (by decide) rfl).mpr
      (by decide),
    by decide, rfl,
    fun h =>
      absurd ((c7_bot_filter envProd reqGooglebotAdmin 0 "rid" emptyStore
        (by decide) rfl).mp h) (by decide)⟩

/-! ## C2 -/

/-- Claim C2 is false on its ordering part: the middleware consults (and
mutates) the rate-limit counter before the content-length check, so a
client whose auth budget is exhausted gets 429, not 413, even with an
11000000-byte content length. -/
theorem c2_counterexample :
    jsParseInt "11000000" = some 11000000 ∧
      oversizeHeader reqOversizeAuth = true ∧
      (middleware envProd reqOversizeAuth 5 "rid" storeAuth5).1.status = 429 := by
  refine ⟨by decide, by decide, by decide⟩

/-- Claim C2, amended: the oversized-body check (content length strictly
greater than 10 MiB) yields 413 and is applied before the malicious-path
check (no hypothesis on the path is needed), but only after the rate
limiter has admitted the request and the bot check has passed; the
rate-limit counter is consulted and updated even for oversized requests
(the final store is the limiter-updated store). -/
theorem c2_oversize_413 (env : Env) (req : Request) (now : Nat) (rid : String)
    (s : Store)
    (hopt : (strStartsWith req.pathname "/api" && (req.method == "OPTIONS")) = false)
    (hallow : (rateLimitCheck (selectConfig req.pathname) (getClientIP req) now s).1 = none)
    (hbot : ((suspiciousUA ((req.headers "user-agent").getD "") &&
        !legitimateBot ((req.headers "user-agent").getD "")) &&
      !strStartsWith req.pathname "/api/robots" &&
      !strStartsWith req.pathname "/api/sitemap" &&
      (strStartsWith req.pathname "/admin" ||
        strStartsWith req.pathname "/api/")) = false)
    (hov : oversizeHeader req = true) :
    (middleware env req now rid s).1.status = 413 ∧
      (middleware env req now rid s).2 =
        (rateLimitCheck (selectConfig req.pathname) (getClientIP req) now s).2 := by
  simp only [middleware, hopt, Bool.false_eq_true, if_false, hallow]
  rw [if_neg (by rw [hbot]; exact Bool.false_ne_true), if_pos hov]
  exact ⟨rfl, rfl⟩

/-- Witness for the amended C2 on a path that is itself malicious
(`/../../etc/passwd` with an 11000000-byte declared body): the oversized
check fires first and the result is 413, not 400. -/
theorem c2_oversize_413_witness :
    (strStartsWith reqOversizePasswd.pathname "/api" &&
        (reqOversizePasswd.method == "OPTIONS")) = false ∧
      (rateLimitCheck (selectConfig reqOversizePasswd.pathname)
          (getClientIP reqOversizePasswd) 0 emptyStore).1 = none ∧
      oversizeHeader reqOversizePasswd = true ∧
      suspiciousUrl reqOversizePasswd.pathname = true ∧
      ((middleware envProd reqOversizePasswd 0 "rid" emptyStore).1.status = 413 ∧
        (middleware envProd reqOversizePasswd 0 "rid" emptyStore).2 =
          (rateLimitCheck (selectConfig reqOversizePasswd.pathname)
            (getClientIP reqOversizePasswd) 0 emptyStore).2) :=
  ⟨by decide, rfl, by decide, by decide,
    c2_oversize_413 envProd reqOversizePasswd 0 "rid" emptyStore (by decide) rfl
      (by decide) (by decide)⟩

/-! ## C4 -/

/-- Claim C4 is false on its rate-limit-independence part: with the general
counter already over budget, the traversal path `/../../etc/passwd` is
answered 429 by the rate limiter, which runs first, not 400. -/
theorem c4_counterexample :
    suspiciousUrl reqPasswd.pathname = true ∧
      (middleware envProd reqPasswd 0 "rid" storeGen60).1.status = 429 := by
  refine ⟨by decide, by decide⟩

/-- Claim C4, amended: a path matching a malicious-URL pattern yields 400
for every client identity, provided the rate limiter (which the middleware
consults first) admits the request, the bot check does not fire, and the
declared body is not oversized. -/
theorem c4_malicious_400 (env : Env) (req : Request) (now : Nat) (rid : String)
    (s : Store)
    (hopt : (strStartsWith req.pathname "/api" && (req.method == "OPTIONS")) = false)
    (hallow : (rateLimitCheck (selectConfig req.pathname) (getClientIP req) now s).1 = none)
    (hbot : ((suspiciousUA ((req.headers "user-agent").getD "") &&
        !legitimateBot ((req.headers "user-agent").getD "")) &&
      !strStartsWith req.pathname "/api/robots" &&
      !strStartsWith req.pathname "/api/sitemap" &&
      (strStartsWith req.pathname "/admin" ||
        strStartsWith req.pathname "/api/")) = false)
    (hov : oversizeHeader req = false)
    (hmal : suspiciousUrl req.pathname = true) :
    (middleware env req now rid s).1.status = 400 := by
  simp only [middleware, hopt, Bool.false_eq_true, if_false, hallow]
  rw [if_neg (by rw [hbot]; exact Bool.false_ne_true),
    if_neg (by rw [hov]; exact Bool.false_ne_true), if_pos hmal]

/-- Witness for the amended C4 at spec Scenario B on a fresh store. -/
theorem c4_malicious_400_witness :
    (strStartsWith reqPasswd.pathname "/api" &&
        (reqPasswd.method == "OPTIONS")) = false ∧
      (rateLimitCheck (selectConfig reqPasswd.pathname)
          (getClientIP reqPasswd) 0 emptyStore).1 = none ∧
      oversizeHeader reqPasswd = false ∧
      suspiciousUrl reqPasswd.pathname = true ∧
      (middleware envProd reqPasswd 0 "rid" emptyStore).1.status = 400 :=
  ⟨by decide, rfl, rfl, by decide,
    c4_malicious_400 envProd reqPasswd 0 "rid" emptyStore (by decide) rfl
      (by decide) rfl (by decide)⟩

/-! ## C3 -/

lemma rateLimitCheck_some_headers (c : RateLimitConfig) (ip : String)
    (now : Nat) (s : Store) (r : MwResponse)
    (h : (rateLimitCheck c ip now s).1 = some r) :
    r.status = 429 ∧ r.headers "Content-Security-Policy" = none ∧
      r.headers "Strict-Transport-Security" = none ∧
      r.headers "X-Frame-Options" = none := by
  cases hrec : s (rlKey ip) with
  | none =>
      have hn : (rateLimitCheck c ip now s).1 = none := by
        simp only [rateLimitCheck, hrec]
      rw [hn] at h
      exact Option.noConfusion h
  | some rec =>
      by_cases hgt : rec.resetTime < now
      · have hn : (rateLimitCheck c ip now s).1 = none := by
          simp only [rateLimitCheck, hrec, if_pos hgt]
        rw [hn] at h
        exact Option.noConfusion h
      · by_cases hge : c.maxRequests ≤ rec.count
        · simp only [rateLimitCheck, hrec, if_neg hgt, if_pos hge] at h
          cases Option.some.inj h
          refine ⟨rfl, ?_, ?_, ?_⟩ <;> simp [setHeader, emptyHeaders]
        · have hn : (rateLimitCheck c ip now s).1 = none := by
            simp only [rateLimitCheck, hrec, if_neg hgt, if_neg hge]
          rw [hn] at h
          exact Option.noConfusion h

/-- Claim C3 is false: the bot rejection (403) is a fresh response carrying
no headers at all; in particular the computed Content-Security-Policy
header is absent from it. -/
theorem c3_counterexample :
    (middleware envProd reqScraperApi 0 "rid" emptyStore).1.status = 403 ∧
      (middleware envProd reqScraperApi 0 "rid" emptyStore).1.headers
        "Content-Security-Policy" = none ∧
      (middleware envProd reqScraperApi 0 "rid" emptyStore).1.headers
        "Strict-Transport-Security" = none := by
  refine ⟨by decide, by decide, by decide⟩

/-- Claim C3, amended: every rejection response of the gate (status 429,
403, 413 or 400) lacks the computed security headers - the 429 response
carries only its rate-limit headers, and the 403/413/400 responses carry no
headers; the security headers are attached only to the pass-through and
preflight responses. -/
theorem c3_rejections_lack_security_headers (env : Env) (req : Request)
    (now : Nat) (rid : String) (s : Store)
    (hrej : (middleware env req now rid s).1.status = 429 ∨
      (middleware env req now rid s).1.status = 403 ∨
      (middleware env req now rid s).1.status = 413 ∨
      (middleware env req now rid s).1.status = 400) :
    (middleware env req now rid s).1.headers "Content-Security-Policy" = none ∧
      (middleware env req now rid s).1.headers "Strict-Transport-Security" = none ∧
      (middleware env req now rid s).1.headers "X-Frame-Options" = none := by
  by_cases hpre : (strStartsWith req.pathname "/api" && (req.method == "OPTIONS")) = true
  · exfalso
    simp only [middleware, if_pos hpre] at hrej
    rcases hrej with h | h | h | h <;> omega
  · have hpre2 : (strStartsWith req.pathname "/api" && (req.method == "OPTIONS")) = false :=
      Bool.eq_false_iff.mpr hpre
    simp only [middleware, hpre2, Bool.false_eq_true, if_false] at hrej ⊢
    cases hrl : (rateLimitCheck (selectConfig req.pathname) (getClientIP req) now s).1 with
    | some resp =>
        simp only [hrl] at hrej ⊢
        have h4 := rateLimitCheck_some_headers _ _ _ _ _ hrl
        exact ⟨h4.2.1, h4.2.2.1, h4.2.2.2⟩
    | none =>
        simp only [hrl] at hrej ⊢
        by_cases hbot : ((suspiciousUA ((req.headers "user-agent").getD "") &&
            !legitimateBot ((req.headers "user-agent").getD "")) &&
          !strStartsWith req.pathname "/api/robots" &&
          !strStartsWith req.pathname "/api/sitemap" &&
          (strStartsWith req.pathname "/admin" ||
            strStartsWith req.pathname "/api/")) = true
        · rw [if_pos hbot]
          exact ⟨rfl, rfl, rfl⟩
        · rw [if_neg hbot] at hrej ⊢
          by_cases hov : oversizeHeader req = true
          · rw [if_pos hov]
            exact ⟨rfl, rfl, rfl⟩
          · rw [if_neg hov] at hrej ⊢
            by_cases hmal : suspiciousUrl req.pathname = true
            · rw [if_pos hmal]
              exact ⟨rfl, rfl, rfl⟩
            · rw [if_neg hmal] at hrej
              exfalso
              simp only at hrej
              rcases hrej with h | h | h | h <;> omega

/-- Witness for the amended C3 at the over-budget 429 rejection: the
Retry-After response still lacks every security header. -/
theorem c3_rejections_witness :
    ((middleware envProd reqOversizeAuth 5 "rid" storeAuth5).1.status = 429 ∨
      (middleware envProd reqOversizeAuth 5 "rid" storeAuth5).1.status = 403 ∨
      (middleware envProd reqOversizeAuth 5 "rid" storeAuth5).1.status = 413 ∨
      (middleware envProd reqOversizeAuth 5 "rid" storeAuth5).1.status = 400) ∧
      ((middleware envProd reqOversizeAuth 5 "rid" storeAuth5).1.headers
          "Content-Security-Policy" = none ∧
        (middleware envProd reqOversizeAuth 5 "rid" storeAuth5).1.headers
          "Strict-Transport-Security" = none ∧
        (middleware envProd reqOversizeAuth 5 "rid" storeAuth5).1.headers
          "X-Frame-Options" = none) :=
  ⟨Or.inl (by decide),
    c3_rejections_lack_security_headers envProd reqOversizeAuth 5 "rid" storeAuth5
      (Or.inl (by decide))⟩

end AstralCore
